import Mathlib

set_option linter.unusedVariables false

/- Formal model of the quantitative pricing and risk engine of the
   capital-markets repository (pool pricing, route finding, liquidity
   engine, swap quoting, portfolio risk analytics, slippage estimation).
   Monetary quantities are modelled as exact rationals; the square roots
   appearing in portfolio volatility and in the slippage amount factor are
   taken in the reals.  The `Math.random()` draws of the mock swap layer
   are modelled as explicit parameters, and the randomized transaction
   hashes (irrelevant to any numeric result) are omitted. -/

namespace Engine

/-- JavaScript `x || d` on an optional number: the default is used both when
the value is absent (`undefined`) and when it is `0`, which is falsy in
JavaScript. -/
def jsOr (x : Option ℚ) (d : ℚ) : ℚ :=
  match x with
  | some v => if v = 0 then d else v
  | none => d

/-- Error kinds named by the error-handling design (section 7 of the spec).
The mock source never actually produces any of them; functions that could
reject are modelled as `Except EngineError`. -/
inductive EngineError where
  | poolNotFound
  | tokenNotInPool
  | invalidAmount
  | noRouteFound
  | insufficientLiquidity
deriving DecidableEq

/-- Pool metadata, from the `PoolInfo` interface of the pool module
(`src/unnamed/part_011`); the two fee fields flatten the nested `fees`
record. -/
structure PoolInfo where
  address : String
  name : String
  tokens : List String
  decimals : List ℕ
  swapFee : ℚ
  adminFee : ℚ
  tvl : ℚ
deriving DecidableEq

/-- The `susd` pool of the hard-coded `poolData` table. -/
def susdPool : PoolInfo :=
  { address := "susdPoolAddress123456789", name := "Stable USD Pool",
    tokens := ["USDC", "USDT", "PYUSD"], decimals := [6, 6, 6],
    swapFee := 0.0004, adminFee := 0.0001, tvl := 100000000 }

/-- The `tripool` pool of the hard-coded `poolData` table. -/
def tripoolPool : PoolInfo :=
  { address := "tripoolAddress123456789", name := "Tri-Pool",
    tokens := ["USDC", "USDT", "DAI"], decimals := [6, 6, 18],
    swapFee := 0.0004, adminFee := 0.0001, tvl := 50000000 }

/-- The `usds` pool of the hard-coded `poolData` table. -/
def usdsPool : PoolInfo :=
  { address := "usdsPoolAddress123456789", name := "USD* Pool",
    tokens := ["USDC", "USDT", "USD*"], decimals := [6, 6, 6],
    swapFee := 0.0003, adminFee := 0.0001, tvl := 75000000 }

/-- Fallback pool returned by `getPoolInfo` for an unknown address. -/
def unknownPool (poolAddress : String) : PoolInfo :=
  { address := poolAddress, name := "Unknown Pool",
    tokens := ["Token1", "Token2"], decimals := [6, 6],
    swapFee := 0.0004, adminFee := 0.0001, tvl := 10000000 }

/-- `getPoolInfo`: resolves a pool name or production address against
`PRODUCTION_POOLS` (entries in order susd, tripool, usds) and returns the
matching `poolData` entry, or the unknown-pool fallback. -/
def getPoolInfo (poolAddress : String) : PoolInfo :=
  if poolAddress = "susdPoolAddress123456789" ∨ poolAddress = "susd" then susdPool
  else if poolAddress = "tripoolAddress123456789" ∨ poolAddress = "tripool" then tripoolPool
  else if poolAddress = "usdsPoolAddress123456789" ∨ poolAddress = "usds" then usdsPool
  else unknownPool poolAddress

/-- Result record of `calculatePriceImpact`. -/
structure PriceImpactResult where
  priceImpact : ℚ
  expectedOutput : ℚ
  fee : ℚ
deriving DecidableEq

/-- `calculatePriceImpact` from the pool module: a linear impact model.
`impactFactor = amountIn / (tvl * 0.01)`, `priceImpact` is capped at `0.05`
and the returned `priceImpact` field is multiplied by 100 ("convert to
percentage").  The token index arguments are accepted but never used, and
no input validation of any kind is performed: the function always
resolves (returns `.ok`). -/
def calculatePriceImpact (poolAddress : String) (tokenInIndex tokenOutIndex : ℤ)
    (amountIn : ℚ) : Except EngineError PriceImpactResult :=
  let poolInfo := getPoolInfo poolAddress
  let impactFactor := amountIn / (poolInfo.tvl * 0.01)
  let priceImpact := min (impactFactor * 0.5) 0.05
  let fee := amountIn * poolInfo.swapFee
  let expectedOutput := amountIn * (1 - priceImpact - poolInfo.swapFee)
  .ok { priceImpact := priceImpact * 100, expectedOutput := expectedOutput, fee := fee }

/-- Result record of `findOptimalRoute`. -/
structure RouteResult where
  route : List String
  pools : List String
  expectedOutput : ℚ
  priceImpact : ℚ
deriving DecidableEq

/-- Registry iteration order: `Object.keys(PRODUCTION_POOLS)`. -/
def poolNames : List String := ["susd", "tripool", "usds"]

/-- The loop of `findOptimalRoute` that looks for the first registered pool
containing both tokens. -/
def directPool (fromToken toToken : String) : Option String :=
  poolNames.find? fun n =>
    ((getPoolInfo n).tokens.contains fromToken) && ((getPoolInfo n).tokens.contains toToken)

/-- `findOptimalRoute` from the pool module.  If some pool holds both
tokens it is used directly; otherwise the function unconditionally builds
the 2-hop route `[fromToken, USDC, toToken]` and prices it on `tripool`
(it never checks that such a route exists and never rejects).  Either way
the price impact is computed with the fixed token indices 0 and 1. -/
def findOptimalRoute (fromToken toToken : String) (amount : ℚ) :
    Except EngineError RouteResult :=
  match directPool fromToken toToken with
  | some selectedPool => do
      let r ← calculatePriceImpact selectedPool 0 1 amount
      return { route := [fromToken, toToken], pools := [selectedPool],
               expectedOutput := r.expectedOutput, priceImpact := r.priceImpact }
  | none => do
      let r ← calculatePriceImpact "tripool" 0 1 amount
      return { route := [fromToken, "USDC", toToken], pools := ["tripool"],
               expectedOutput := r.expectedOutput, priceImpact := r.priceImpact }

/-- Result record of `addLiquidity` (transaction hash omitted). -/
structure AddLiquidityResult where
  lpTokenAmount : ℚ
  amountsIn : List ℚ
deriving DecidableEq

/-- `addLiquidity` from the liquidity module: the minted LP amount is 95%
of the sum of the raw `maxAmountsIn`, while the actual `amountsIn` are 99%
of each maximum.  The pool argument is accepted but unused by the mock. -/
def addLiquidity (pool : String) (maxAmountsIn : List ℚ) : AddLiquidityResult :=
  let totalAmountIn := maxAmountsIn.sum
  let lpTokenAmount := totalAmountIn * 0.95
  let amountsIn := maxAmountsIn.map (fun amount => amount * 0.99)
  { lpTokenAmount := lpTokenAmount, amountsIn := amountsIn }

/-- Token count used by `removeLiquidity`: 3 when the pool resolves to
`tripool` (by name or production address), otherwise 2. -/
def removeTokenCount (pool : String) : ℕ :=
  if pool = "tripool" ∨ pool = "tripoolAddress123456789" then 3 else 2

/-- `removeLiquidity` from the liquidity module: the redeemed LP amount is
scaled by an assumed 2% growth and split evenly over the pool's token
count.  The LP total supply is never consulted and no
`insufficientLiquidity` rejection ever happens. -/
def removeLiquidity (pool : String) (lpTokenRedeemAmount : ℚ) : List ℚ :=
  let tokenCount := removeTokenCount pool
  let lpTokenValue := lpTokenRedeemAmount * 1.02
  let amountPerToken := lpTokenValue / tokenCount
  List.replicate tokenCount amountPerToken

/-- Parameters of `getSwapQuote` (the `in`/`out` fields are kept as token
strings, which is how they are used to build the returned route). -/
structure QuoteParams where
  pool : String
  tokenIn : String
  tokenOut : String
  exactAmountIn : ℚ
  slippageTolerance : Option ℚ
deriving DecidableEq

/-- Result record of `getSwapQuote`. -/
structure QuoteResult where
  expectedAmountOut : ℚ
  minAmountOut : ℚ
  priceImpact : ℚ
  fee : ℚ
  route : List String
deriving DecidableEq

/-- `getSwapQuote` from the swap module.  The price impact is
`Math.random() * 0.01 * 100`; the fresh uniform draw in `[0,1)` is the
explicit first argument `rand`.  The slippage tolerance defaults to 0.005
through JavaScript `||`. -/
def getSwapQuote (rand : ℚ) (params : QuoteParams) : QuoteResult :=
  let priceImpact := rand * 0.01 * 100
  let fee := params.exactAmountIn * 0.003
  let expectedAmountOut := params.exactAmountIn * (1 - priceImpact / 100 - 0.003)
  let slippageTolerance := jsOr params.slippageTolerance 0.005
  let minAmountOut := expectedAmountOut * (1 - slippageTolerance)
  { expectedAmountOut := expectedAmountOut, minAmountOut := minAmountOut,
    priceImpact := priceImpact, fee := fee,
    route := [params.tokenIn, params.tokenOut] }

/-- One entry of a portfolio snapshot, from the `PortfolioAsset` interface
of the exposure calculator (`src/libs/capital-markets/yieldCurve.ts`). -/
structure PortfolioAsset where
  symbol : String
  balance : ℚ
  usdValue : ℚ
deriving DecidableEq

/-- The hard-coded annualized volatility table `assetVolatility` of the
exposure calculator. -/
def assetVolatility : List (String × ℚ) :=
  [("USDC", 0.01), ("USDT", 0.01), ("yUSDC", 0.01),
   ("xGOLD", 0.15), ("xKES", 0.08), ("xEUR", 0.06)]

/-- Volatility lookup `this.assetVolatility[symbol] || 0.05`. -/
def volOf (symbol : String) : ℚ :=
  jsOr (assetVolatility.lookup symbol) 0.05

/-- The hard-coded correlation table `correlationMatrix` of the exposure
calculator, row by row. -/
def correlationMatrix : List (String × List (String × ℚ)) :=
  [("USDC", [("USDC", 1.0), ("USDT", 0.95), ("yUSDC", 0.99), ("xGOLD", 0.1), ("xKES", 0.2), ("xEUR", 0.3)]),
   ("USDT", [("USDC", 0.95), ("USDT", 1.0), ("yUSDC", 0.95), ("xGOLD", 0.1), ("xKES", 0.2), ("xEUR", 0.3)]),
   ("yUSDC", [("USDC", 0.99), ("USDT", 0.95), ("yUSDC", 1.0), ("xGOLD", 0.1), ("xKES", 0.2), ("xEUR", 0.3)]),
   ("xGOLD", [("USDC", 0.1), ("USDT", 0.1), ("yUSDC", 0.1), ("xGOLD", 1.0), ("xKES", 0.4), ("xEUR", 0.5)]),
   ("xKES", [("USDC", 0.2), ("USDT", 0.2), ("yUSDC", 0.2), ("xGOLD", 0.4), ("xKES", 1.0), ("xEUR", 0.6)]),
   ("xEUR", [("USDC", 0.3), ("USDT", 0.3), ("yUSDC", 0.3), ("xGOLD", 0.5), ("xKES", 0.6), ("xEUR", 1.0)])]

/-- `this.correlationMatrix[a]?.[b]` as an optional value. -/
def corrLookup (a b : String) : Option ℚ :=
  (correlationMatrix.lookup a).bind fun row => row.lookup b

/-- `getCorrelation`: `(M[a]?.[b]) || (M[b]?.[a]) || 0.5`. -/
def getCorrelation (a b : String) : ℚ :=
  jsOr (corrLookup a b) (jsOr (corrLookup b a) 0.5)

/-- The hard-coded `expectedReturns` table of `calculateExpectedReturn`. -/
def expectedReturns : List (String × ℚ) :=
  [("USDC", 0.01), ("USDT", 0.01), ("yUSDC", 0.045),
   ("xGOLD", 0.07), ("xKES", 0.06), ("xEUR", 0.03)]

/-- JavaScript `record[key] = value` on a record modelled as an ordered
association list: an existing key is overwritten in place, a new key is
appended (matching `Object.keys` insertion order). -/
def recSet {α : Type} (l : List (String × α)) (k : String) (v : α) : List (String × α) :=
  if (l.lookup k).isSome then l.map (fun p => if p.1 = k then (k, v) else p)
  else l ++ [(k, v)]

/-- Total portfolio value: `portfolio.reduce((sum, asset) => sum + asset.usdValue, 0)`. -/
def totalValue (pf : List PortfolioAsset) : ℚ :=
  (pf.map PortfolioAsset.usdValue).sum

/-- The weights record of `calculateRiskMetrics`:
`weights[asset.symbol] = asset.usdValue / totalValue` over the portfolio in
order (later entries with the same symbol overwrite earlier ones). -/
def computeWeights (pf : List PortfolioAsset) (total : ℚ) : List (String × ℚ) :=
  pf.foldl (fun acc asset => recSet acc asset.symbol (asset.usdValue / total)) []

/-- The double loop of `calculatePortfolioVolatility` before the square
root: diagonal terms `w_i^2 v_i^2` plus, for every later index `j`, the
cross term `2 w_i w_j v_i v_j corr(i,j)`. -/
def portfolioVariance : List (String × ℚ) → ℚ
  | [] => 0
  | (assetI, weightI) :: rest =>
      weightI * weightI * volOf assetI * volOf assetI
        + (rest.map (fun p =>
            2 * weightI * p.2 * volOf assetI * volOf p.1 * getCorrelation assetI p.1)).sum
        + portfolioVariance rest

/-- `calculatePortfolioVolatility`: the square root of the accumulated
variance. -/
noncomputable def calculatePortfolioVolatility (weights : List (String × ℚ)) : ℝ :=
  Real.sqrt (portfolioVariance weights)

/-- The `marginalContribution` accumulated for one asset inside
`calculateRiskExposure`: `weight * assetVolatility` plus, for every other
portfolio entry with a different symbol,
`weight * otherWeight * correlation * assetVolatility * otherVolatility`. -/
def marginalContribution (pf : List PortfolioAsset) (weights : List (String × ℚ))
    (asset : PortfolioAsset) : ℚ :=
  let assetVol := volOf asset.symbol
  let weight := (weights.lookup asset.symbol).getD 0
  weight * assetVol
    + (pf.map (fun otherAsset =>
        if otherAsset.symbol = asset.symbol then 0
        else weight * ((weights.lookup otherAsset.symbol).getD 0)
              * getCorrelation asset.symbol otherAsset.symbol
              * assetVol * volOf otherAsset.symbol)).sum

/-- `calculateRiskExposure`: the record mapping each portfolio symbol to
`marginalContribution / portfolioVolatility * 100`. -/
noncomputable def calculateRiskExposure (pf : List PortfolioAsset)
    (weights : List (String × ℚ)) (portfolioVolatility : ℝ) : List (String × ℝ) :=
  pf.foldl (fun acc asset =>
    recSet acc asset.symbol
      (((marginalContribution pf weights asset : ℚ) : ℝ) / portfolioVolatility * 100)) []

/-- `calculateExpectedReturn`: `Σ weight * (expectedReturns[asset] || 0.03)`. -/
def calculateExpectedReturn (weights : List (String × ℚ)) : ℚ :=
  (weights.map (fun p => p.2 * jsOr (expectedReturns.lookup p.1) 0.03)).sum

/-- The `RiskMetrics` record of the exposure calculator (the `sharpeRatio`
field is shortened to `sharpe`). -/
structure RiskMetrics where
  totalValue : ℚ
  volatility : ℝ
  sharpe : ℝ
  maxDrawdown : ℝ
  valueAtRisk : ℝ
  riskExposure : List (String × ℝ)

/-- `getEmptyRiskMetrics`: the all-zero metrics for a zero-value portfolio. -/
def getEmptyRiskMetrics : RiskMetrics :=
  { totalValue := 0, volatility := 0, sharpe := 0,
    maxDrawdown := 0, valueAtRisk := 0, riskExposure := [] }

/-- `calculateRiskMetrics` of the exposure calculator. -/
noncomputable def calculateRiskMetrics (pf : List PortfolioAsset) : RiskMetrics :=
  let total := totalValue pf
  if total = 0 then getEmptyRiskMetrics
  else
    let weights := computeWeights pf total
    let volatility := calculatePortfolioVolatility weights
    let riskFreeRate : ℚ := 0.02
    let expectedReturn := calculateExpectedReturn weights
    let sharpe := ((expectedReturn - riskFreeRate : ℚ) : ℝ) / volatility
    let zScore95 : ℝ := 1.645
    let valueAtRisk := zScore95 * volatility * Real.sqrt (1 / 252) * (total : ℝ)
    let maxDrawdown := volatility * 2.5
    let riskExposure := calculateRiskExposure pf weights volatility
    { totalValue := total, volatility := volatility, sharpe := sharpe,
      maxDrawdown := maxDrawdown, valueAtRisk := valueAtRisk,
      riskExposure := riskExposure }

/-- `calculateSlippage` of the exposure calculator: average volatility of
the two tokens times 0.1 times `sqrt(amount / 10000)`, clamped to
`[0.001, 0.05]`. -/
noncomputable def calculateSlippage (fromToken toToken : String) (amount : ℝ) : ℝ :=
  let fromVolatility := (volOf fromToken : ℝ)
  let toVolatility := (volOf toToken : ℝ)
  let avgVolatility := (fromVolatility + toVolatility) / 2
  let amountFactor := Real.sqrt (amount / 10000)
  let slippage := avgVolatility * 0.1 * amountFactor
  min (max slippage 0.001) 0.05

/-- `calculateSlippageTolerance`: 1.5 times the estimated slippage. -/
noncomputable def calculateSlippageTolerance (fromToken toToken : String) (amount : ℝ) : ℝ :=
  calculateSlippage fromToken toToken amount * 1.5

/-- Every pool served by `getPoolInfo` has strictly positive total value
locked. -/
theorem getPoolInfo_tvl_pos (poolAddress : String) : 0 < (getPoolInfo poolAddress).tvl := by
  unfold getPoolInfo
  split
  · norm_num [susdPool]
  · split
    · norm_num [tripoolPool]
    · split
      · norm_num [usdsPool]
      · norm_num [unknownPool]

/-- Claim C2, counterexample: for the pool with tvl 100,000,000 and swap
fee 0.0004 (the `susd` pool) and `amountIn = 1,000,000`, the `priceImpact`
field actually returned is 5 (percent), not the fraction 0.05 claimed. -/
theorem c2_counterexample :
    (calculatePriceImpact "susd" 0 1 1000000).toOption.map PriceImpactResult.priceImpact
        = some 5
      ∧ (5 : ℚ) ≠ 0.05 := by
  constructor
  · norm_num [calculatePriceImpact, getPoolInfo, susdPool, Except.toOption]
  · norm_num

/-- Claim C2, amended: on the `susd` pool (tvl 100,000,000, swap fee
0.0004) with `amountIn = 1,000,000` the pricing model computes the capped
impact fraction `min(0.5, 0.05) = 0.05` but returns it multiplied by 100,
so the result is `priceImpact = 5`, `expectedOutput = 949,600` and
`fee = 400`. -/
theorem c2_theorem :
    calculatePriceImpact "susd" 0 1 1000000
      = .ok { priceImpact := 5, expectedOutput := 949600, fee := 400 } := by
  norm_num [calculatePriceImpact, getPoolInfo, susdPool]

/-- Claim C5, counterexample: `calculatePriceImpact` performs no input
validation.  With `amountIn = -5` it does not fail with `invalidAmount`
but returns a (negative) result, and with the out-of-range token indices
99 and 77 on a 3-token pool it does not fail with `tokenNotInPool` but
returns the same result as for valid indices. -/
theorem c5_counterexample :
    calculatePriceImpact "susd" 0 1 (-5)
        = .ok { priceImpact := -0.00025, expectedOutput := -4.9980125, fee := -0.002 }
      ∧ calculatePriceImpact "susd" 99 77 1000000
        = .ok { priceImpact := 5, expectedOutput := 949600, fee := 400 } := by
  constructor
  · norm_num [calculatePriceImpact, getPoolInfo, susdPool]
  · norm_num [calculatePriceImpact, getPoolInfo, susdPool]

/-- Claim C5, amended: `calculatePriceImpact` never rejects.  The token
index arguments are ignored entirely (any two choices of indices give the
same result), and for every `amountIn`, positive or not, the function
returns `.ok` of some result. -/
theorem c5_theorem (pool : String) (i j i2 j2 : ℤ) (a : ℚ) :
    calculatePriceImpact pool i j a = calculatePriceImpact pool i2 j2 a
      ∧ ∃ r, calculatePriceImpact pool i j a = Except.ok r := by
  exact ⟨rfl, _, rfl⟩

/-- Claim C7: for a fixed pool (fixed tvl and swap fee) and fixed token
indices, the `priceImpact` returned by the pricing model is monotonically
non-decreasing in `amountIn`: for `0 < a1 ≤ a2` the impact at `a1` is at
most the impact at `a2`. -/
theorem c7_theorem (pool : String) (i j : ℤ) (a1 a2 : ℚ)
    (r1 r2 : PriceImpactResult) (h0 : 0 < a1) (h12 : a1 ≤ a2)
    (e1 : calculatePriceImpact pool i j a1 = .ok r1)
    (e2 : calculatePriceImpact pool i j a2 = .ok r2) :
    r1.priceImpact ≤ r2.priceImpact := by
  have htvl := getPoolInfo_tvl_pos pool
  simp only [calculatePriceImpact, Except.ok.injEq] at e1 e2
  rw [← e1, ← e2]
  have hd : 0 < (getPoolInfo pool).tvl * 0.01 := by positivity
  have hmono : a1 / ((getPoolInfo pool).tvl * 0.01) * 0.5
      ≤ a2 / ((getPoolInfo pool).tvl * 0.01) * 0.5 := by gcongr
  have hmin := min_le_min hmono (le_refl (0.05 : ℚ))
  exact mul_le_mul_of_nonneg_right hmin (by norm_num)

/-- Claim C7, witness: on the `susd` pool the impact at `amountIn = 100`
(0.005 percent) is at most the impact at `amountIn = 200` (0.01
percent). -/
theorem c7_witness :
    (PriceImpactResult.priceImpact { priceImpact := 0.005, expectedOutput := 99.955, fee := 0.04 })
      ≤ (PriceImpactResult.priceImpact { priceImpact := 0.01, expectedOutput := 199.9, fee := 0.08 }) :=
  c7_theorem "susd" 0 1 100 200 _ _ (by norm_num) (by norm_num)
    (by norm_num [calculatePriceImpact, getPoolInfo, susdPool])
    (by norm_num [calculatePriceImpact, getPoolInfo, susdPool])

/-- Claim C4, counterexample: the tokens FOO and BAR occur in no
registered pool at all, so in particular no pair of pools connects them
through the USDC intermediary; yet `findOptimalRoute` does not fail with
`noRouteFound` — it returns the fictitious 2-hop route `[FOO, USDC, BAR]`
priced on `tripool`. -/
theorem c4_counterexample :
    (susdPool.tokens.contains "FOO" || tripoolPool.tokens.contains "FOO"
        || usdsPool.tokens.contains "FOO") = false
      ∧ (susdPool.tokens.contains "BAR" || tripoolPool.tokens.contains "BAR"
        || usdsPool.tokens.contains "BAR") = false
      ∧ findOptimalRoute "FOO" "BAR" 100
        = .ok { route := ["FOO", "USDC", "BAR"], pools := ["tripool"],
                expectedOutput := 99.95, priceImpact := 0.01 } := by
  refine ⟨rfl, rfl, ?_⟩
  have h : directPool "FOO" "BAR" = none := rfl
  have hp : getPoolInfo "tripool" = tripoolPool := rfl
  simp only [findOptimalRoute, h]
  norm_num [calculatePriceImpact, hp, tripoolPool, Except.bind]

/-- Claim C4, amended: whenever no registered pool contains both tokens,
`findOptimalRoute` never fails with `noRouteFound`; it unconditionally
returns the 2-hop route through USDC priced on `tripool`, whether or not
any pool actually connects the tokens to USDC. -/
theorem c4_theorem (fromToken toToken : String) (amount : ℚ)
    (h : directPool fromToken toToken = none) :
    findOptimalRoute fromToken toToken amount
      = .ok { route := [fromToken, "USDC", toToken], pools := ["tripool"],
              expectedOutput :=
                amount * (1 - min (amount / (tripoolPool.tvl * 0.01) * 0.5) 0.05
                  - tripoolPool.swapFee),
              priceImpact := min (amount / (tripoolPool.tvl * 0.01) * 0.5) 0.05 * 100 } := by
  have hp : getPoolInfo "tripool" = tripoolPool := rfl
  simp only [findOptimalRoute, h, calculatePriceImpact, hp, Except.bind]
  rfl

/-- Claim C4, witness: the amended statement at the concrete unroutable
pair (FOO, BAR) with amount 40. -/
theorem c4_witness :
    findOptimalRoute "FOO" "BAR" 40
      = .ok { route := ["FOO", "USDC", "BAR"], pools := ["tripool"],
              expectedOutput := 39.9824, priceImpact := 0.004 } := by
  have h := c4_theorem "FOO" "BAR" 40 rfl
  rw [h]
  norm_num [tripoolPool]

/-- Claim C3, counterexample: `getSwapQuote` draws `Math.random()` afresh
on each invocation (the draw is the explicit first argument of the
model).  With identical quote parameters, the draws 0 and 1/2 — both
legitimate values of a uniform draw in [0, 1) — give different outputs,
so two invocations with identical inputs need not return identical
results. -/
theorem c3_counterexample :
    getSwapQuote 0
        { pool := "susd", tokenIn := "USDC", tokenOut := "USDT",
          exactAmountIn := 1000, slippageTolerance := none }
      ≠ getSwapQuote (1 / 2)
        { pool := "susd", tokenIn := "USDC", tokenOut := "USDT",
          exactAmountIn := 1000, slippageTolerance := none } := by
  intro h
  have h2 := congrArg QuoteResult.priceImpact h
  norm_num [getSwapQuote] at h2

/-- Claim C3, amended: only the fee and the route of a quote are
deterministic functions of the inputs; the price impact (and with it the
expected and minimum outputs) additionally depends on the fresh random
draw, so only invocations that happen to share the draw agree. -/
theorem c3_theorem (r1 r2 : ℚ) (params : QuoteParams) :
    (getSwapQuote r1 params).fee = (getSwapQuote r2 params).fee
      ∧ (getSwapQuote r1 params).route = (getSwapQuote r2 params).route := by
  exact ⟨rfl, rfl⟩

/-- Claim C6: round-trip conservation.  For every non-negative
`maxAmountsIn` vector and any pool, adding liquidity and immediately
removing the full minted LP amount yields `amountsOut` summing to at most
the sum of `maxAmountsIn` (the code multiplies the sum by 0.95 and then by
1.02, a net factor of 0.969 ≤ 1: no value creation). -/
theorem c6_theorem (pool : String) (maxAmountsIn : List ℚ)
    (h : ∀ a ∈ maxAmountsIn, 0 ≤ a) :
    (removeLiquidity pool (addLiquidity pool maxAmountsIn).lpTokenAmount).sum
      ≤ maxAmountsIn.sum := by
  have hS : 0 ≤ maxAmountsIn.sum := List.sum_nonneg h
  have hsum : (removeLiquidity pool (addLiquidity pool maxAmountsIn).lpTokenAmount).sum
      = maxAmountsIn.sum * 0.95 * 1.02 := by
    simp only [removeLiquidity, addLiquidity, List.sum_replicate, smul_eq_mul]
    unfold removeTokenCount
    split <;> norm_num <;> ring
  rw [hsum]
  nlinarith

/-- Claim C6, witness: the round-trip inequality at the concrete input
`maxAmountsIn = [100, 50]` on the `susd` pool. -/
theorem c6_witness :
    (0 : ℚ) ≤ 100 ∧ (0 : ℚ) ≤ 50
      ∧ (removeLiquidity "susd" (addLiquidity "susd" [100, 50]).lpTokenAmount).sum
        ≤ ([100, 50] : List ℚ).sum :=
  ⟨by norm_num, by norm_num, c6_theorem "susd" [100, 50] (by norm_num)⟩

/-- Claim C8, counterexample: for `maxAmountsIn = [100]` the code returns
`amountsIn = [99]` but `lpTokenAmount = 95 = 100 × 0.95`, computed over
the raw maximum; the claim's value `Σ amountsIn × 0.95 = 99 × 0.95 =
94.05` differs. -/
theorem c8_counterexample :
    addLiquidity "susd" [100] = { lpTokenAmount := 95, amountsIn := [99] }
      ∧ (95 : ℚ) ≠ 99 * 0.95 := by
  constructor
  · norm_num [addLiquidity]
  · norm_num

/-- Claim C8, amended: for every `maxAmountsIn` vector with positive
entries, `addLiquidity` returns `amountsIn[i] = maxAmountsIn[i] × 0.99`
(a 1% deposit slippage), but the minted LP amount is
`Σ maxAmountsIn × 0.95`: the 5% mint discount is applied to the sum of the
raw maxima, not to the slippage-adjusted deposit amounts. -/
theorem c8_theorem (pool : String) (maxAmountsIn : List ℚ)
    (h : ∀ a ∈ maxAmountsIn, 0 < a) :
    (addLiquidity pool maxAmountsIn).amountsIn
        = maxAmountsIn.map (fun amount => amount * 0.99)
      ∧ (addLiquidity pool maxAmountsIn).lpTokenAmount = maxAmountsIn.sum * 0.95 := by
  exact ⟨rfl, rfl⟩

/-- Claim C8, witness: the amended statement at `maxAmountsIn = [200]`. -/
theorem c8_witness :
    (0 : ℚ) < 200
      ∧ (addLiquidity "usds" [200]).amountsIn = ([200] : List ℚ).map (fun amount => amount * 0.99)
      ∧ (addLiquidity "usds" [200]).lpTokenAmount = ([200] : List ℚ).sum * 0.95 := by
  refine ⟨by norm_num, ?_, ?_⟩
  · have h := c8_theorem "usds" [200] (by norm_num)
    exact h.1
  · have h := c8_theorem "usds" [200] (by norm_num)
    exact h.2

/-- A successful association-list lookup returns one of the stored
values. -/
theorem lookup_mem {α β : Type} [BEq α] (l : List (α × β)) (a : α) (v : β)
    (h : List.lookup a l = some v) : v ∈ l.map Prod.snd := by
  induction l with
  | nil => simp [List.lookup] at h
  | cons p rest ih =>
    obtain ⟨k, b⟩ := p
    rw [List.lookup_cons] at h
    by_cases hk : (a == k) = true
    · simp [hk] at h
      simp [h]
    · simp only [Bool.not_eq_true] at hk
      simp [hk] at h
      simp [ih h]

/-- Every entry of the hard-coded volatility table is strictly positive. -/
theorem assetVolatility_vals_pos : ∀ v ∈ assetVolatility.map Prod.snd, 0 < v := by
  norm_num [assetVolatility]

/-- Every entry of the hard-coded correlation table is non-negative. -/
theorem correlation_vals_nonneg :
    ∀ row ∈ correlationMatrix.map Prod.snd, ∀ v ∈ row.map Prod.snd, 0 ≤ v := by
  norm_num [correlationMatrix]
  refine ⟨?_, ?_, ?_, ?_, ?_, ?_⟩ <;>
    rintro v x (⟨_, rfl⟩ | ⟨_, rfl⟩ | ⟨_, rfl⟩ | ⟨_, rfl⟩ | ⟨_, rfl⟩ | ⟨_, rfl⟩) <;> norm_num

/-- Every volatility lookup is strictly positive: listed assets have
volatility at least 0.01 and unlisted assets default to 0.05. -/
theorem volOf_pos (s : String) : 0 < volOf s := by
  unfold volOf
  cases h : List.lookup s assetVolatility with
  | none => norm_num [jsOr]
  | some v =>
    have hv := assetVolatility_vals_pos v (lookup_mem _ _ _ h)
    simp only [jsOr]
    split
    · norm_num
    · exact hv

/-- A successful two-level correlation lookup returns a table entry, hence
a non-negative value. -/
theorem corrVal_nonneg {a b : String} {v : ℚ} (h : corrLookup a b = some v) : 0 ≤ v := by
  unfold corrLookup at h
  cases hr : List.lookup a correlationMatrix with
  | none => rw [hr] at h; simp at h
  | some row =>
    rw [hr] at h
    simp only [Option.some_bind] at h
    exact correlation_vals_nonneg row (lookup_mem _ _ _ hr) v (lookup_mem _ _ _ h)

/-- The JavaScript-or of a correlation lookup against a non-negative
default is non-negative. -/
theorem jsOr_corr_nonneg (x y : String) (d : ℚ) (hd : 0 ≤ d) :
    0 ≤ jsOr (corrLookup x y) d := by
  cases h : corrLookup x y with
  | none => simpa [jsOr] using hd
  | some v =>
    have hv := corrVal_nonneg h
    simp only [jsOr]
    split
    · exact hd
    · exact hv

/-- Every correlation used by the exposure calculator is non-negative
(all 36 table entries are positive and the missing-pair default is 0.5). -/
theorem getCorrelation_nonneg (a b : String) : 0 ≤ getCorrelation a b := by
  unfold getCorrelation
  exact jsOr_corr_nonneg a b _ (jsOr_corr_nonneg b a 0.5 (by norm_num))

/-- Setting an absent key on a record appends it. -/
theorem recSet_of_lookup_none {α : Type} {l : List (String × α)} {k : String} (v : α)
    (h : List.lookup k l = none) : recSet l k v = l ++ [(k, v)] := by
  simp [recSet, h]

/-- Lookup skips over a prefix in which the key is absent. -/
theorem lookup_append_of_none {α : Type} {l1 : List (String × α)} (l2 : List (String × α))
    {k : String} (h : List.lookup k l1 = none) :
    List.lookup k (l1 ++ l2) = List.lookup k l2 := by
  induction l1 with
  | nil => simp
  | cons p rest ih =>
    obtain ⟨a, b⟩ := p
    rw [List.lookup_cons] at h
    rw [List.cons_append, List.lookup_cons]
    by_cases hk : (k == a) = true
    · simp [hk] at h
    · simp only [Bool.not_eq_true] at hk
      simp only [hk] at h ⊢
      exact ih h

/-- For a portfolio whose symbols are pairwise distinct, the weights
record is just the portfolio mapped to (symbol, value / total). -/
theorem computeWeights_of_nodup_aux (t : ℚ) :
    ∀ (pf : List PortfolioAsset) (acc : List (String × ℚ)),
      (pf.map PortfolioAsset.symbol).Nodup →
      (∀ a ∈ pf, List.lookup a.symbol acc = none) →
      pf.foldl (fun acc asset => recSet acc asset.symbol (asset.usdValue / t)) acc
        = acc ++ pf.map (fun a => (a.symbol, a.usdValue / t))
  | [], acc, _, _ => by simp
  | x :: rest, acc, hnd, hacc => by
    simp only [List.foldl_cons]
    rw [recSet_of_lookup_none _ (hacc x (List.mem_cons_self x rest))]
    have hnd' : (rest.map PortfolioAsset.symbol).Nodup :=
      (List.nodup_cons.mp (by simpa using hnd)).2
    have hx : x.symbol ∉ rest.map PortfolioAsset.symbol :=
      (List.nodup_cons.mp (by simpa using hnd)).1
    rw [computeWeights_of_nodup_aux t rest (acc ++ [(x.symbol, x.usdValue / t)]) hnd' ?_]
    · simp
    · intro a ha
      rw [lookup_append_of_none _ (hacc a (List.mem_cons_of_mem x ha))]
      have hne : a.symbol ≠ x.symbol := by
        intro he
        exact hx (he ▸ List.mem_map_of_mem PortfolioAsset.symbol ha)
      rw [List.lookup_cons]
      simp [beq_false_of_ne hne]

/-- `computeWeights` on a duplicate-free portfolio. -/
theorem computeWeights_of_nodup (pf : List PortfolioAsset) (t : ℚ)
    (hnd : (pf.map PortfolioAsset.symbol).Nodup) :
    computeWeights pf t = pf.map (fun a => (a.symbol, a.usdValue / t)) := by
  have h := computeWeights_of_nodup_aux t pf [] hnd (by simp)
  simpa [computeWeights] using h

/-- The accumulated variance is non-negative whenever all weights are
non-negative (volatilities are positive, correlations non-negative). -/
theorem portfolioVariance_nonneg (l : List (String × ℚ)) (h : ∀ p ∈ l, 0 ≤ p.2) :
    0 ≤ portfolioVariance l := by
  induction l with
  | nil => simp [portfolioVariance]
  | cons p rest ih =>
    obtain ⟨a, w⟩ := p
    have hw : 0 ≤ w := h (a, w) (List.mem_cons_self _ _)
    have hva := (volOf_pos a).le
    simp only [portfolioVariance]
    have h1 : 0 ≤ w * w * volOf a * volOf a :=
      mul_nonneg (mul_nonneg (mul_nonneg hw hw) hva) hva
    have h2 : 0 ≤ (rest.map (fun p =>
        2 * w * p.2 * volOf a * volOf p.1 * getCorrelation a p.1)).sum := by
      apply List.sum_nonneg
      intro q hq
      obtain ⟨p', hp', rfl⟩ := List.mem_map.mp hq
      have hp2 : 0 ≤ p'.2 := h p' (List.mem_cons_of_mem _ hp')
      have := getCorrelation_nonneg a p'.1
      have := (volOf_pos p'.1).le
      positivity
    have h3 := ih (fun p hp => h p (List.mem_cons_of_mem _ hp))
    linarith

/-- The accumulated variance is strictly positive as soon as one weight is
strictly positive and all are non-negative. -/
theorem portfolioVariance_pos (l : List (String × ℚ)) (h : ∀ p ∈ l, 0 ≤ p.2)
    (q : String × ℚ) (hq : q ∈ l) (hqpos : 0 < q.2) :
    0 < portfolioVariance l := by
  induction l with
  | nil => simp at hq
  | cons p rest ih =>
    obtain ⟨a, w⟩ := p
    have hrest : ∀ p ∈ rest, 0 ≤ p.2 := fun p hp => h p (List.mem_cons_of_mem _ hp)
    have hva := volOf_pos a
    have h2 : 0 ≤ (rest.map (fun p =>
        2 * w * p.2 * volOf a * volOf p.1 * getCorrelation a p.1)).sum := by
      apply List.sum_nonneg
      intro x hx
      obtain ⟨p', hp', rfl⟩ := List.mem_map.mp hx
      have hw : 0 ≤ w := h (a, w) (List.mem_cons_self _ _)
      have hp2 : 0 ≤ p'.2 := hrest p' hp'
      have := getCorrelation_nonneg a p'.1
      have := (volOf_pos p'.1).le
      positivity
    simp only [portfolioVariance]
    rcases List.mem_cons.mp hq with he | hq'
    · have hwpos : 0 < w := by
        have : q.2 = w := by rw [he]
        linarith [hqpos, this.symm.le]
      have h1 : 0 < w * w * volOf a * volOf a := by positivity
      have h3 := portfolioVariance_nonneg rest hrest
      linarith
    · have hw : 0 ≤ w := h (a, w) (List.mem_cons_self _ _)
      have h1 : 0 ≤ w * w * volOf a * volOf a := by positivity
      have h3 := ih hrest hq'
      linarith

/-- Claim C9, counterexample: a portfolio may list the same symbol twice;
the JavaScript weights record then keeps only the last entry.  For the
portfolio [USDC value 100, USDC value 0] — all values non-negative, total
value 100 > 0 — the weights record collapses to USDC ↦ 0 and the computed
portfolio volatility is 0, so the Sharpe-ratio division does divide by
zero. -/
theorem c9_counterexample :
    totalValue [⟨"USDC", 0, 100⟩, ⟨"USDC", 0, 0⟩] = 100
      ∧ (0 : ℚ) ≤ (PortfolioAsset.mk "USDC" 0 100).usdValue
      ∧ (0 : ℚ) ≤ (PortfolioAsset.mk "USDC" 0 0).usdValue
      ∧ calculatePortfolioVolatility
          (computeWeights [⟨"USDC", 0, 100⟩, ⟨"USDC", 0, 0⟩]
            (totalValue [⟨"USDC", 0, 100⟩, ⟨"USDC", 0, 0⟩])) = 0 := by
  have ht : totalValue [⟨"USDC", 0, 100⟩, ⟨"USDC", 0, 0⟩] = (100 : ℚ) := by
    norm_num [totalValue]
  refine ⟨ht, by norm_num, by norm_num, ?_⟩
  rw [ht]
  have hw : computeWeights [⟨"USDC", 0, 100⟩, ⟨"USDC", 0, 0⟩] 100 = [("USDC", 0)] := by
    norm_num [computeWeights, recSet, List.lookup]
  rw [hw]
  have hv : portfolioVariance [("USDC", (0 : ℚ))] = 0 := by
    simp [portfolioVariance]
  unfold calculatePortfolioVolatility
  rw [hv]
  simp

/-- Claim C9, amended: for every portfolio with pairwise-distinct symbols,
all USD values non-negative and positive total value, the portfolio
volatility computed by `calculatePortfolioVolatility` on the weights of
`calculateRiskMetrics` is strictly positive (every volatility lookup is at
least 0.01, the unlisted default is 0.05, and every correlation used is
non-negative), so the Sharpe-ratio division never divides by zero. -/
theorem c9_theorem (pf : List PortfolioAsset)
    (hnd : (pf.map PortfolioAsset.symbol).Nodup)
    (hnn : ∀ a ∈ pf, 0 ≤ a.usdValue)
    (hpos : 0 < totalValue pf) :
    0 < calculatePortfolioVolatility (computeWeights pf (totalValue pf)) := by
  rw [computeWeights_of_nodup pf _ hnd]
  apply Real.sqrt_pos.mpr
  have hvar : 0 < portfolioVariance (pf.map fun a => (a.symbol, a.usdValue / totalValue pf)) := by
    obtain ⟨a0, ha0, ha0pos⟩ : ∃ a ∈ pf, 0 < a.usdValue := by
      by_contra hcon
      push_neg at hcon
      have hle : ∀ l : List ℚ, (∀ x ∈ l, x ≤ 0) → l.sum ≤ 0 := by
        intro l
        induction l with
        | nil => simp
        | cons x xs ih =>
          intro h
          have h1 := h x (List.mem_cons_self _ _)
          have h2 := ih (fun y hy => h y (List.mem_cons_of_mem _ hy))
          simp only [List.sum_cons]
          linarith
      have : totalValue pf ≤ 0 := by
        apply hle
        intro x hx
        obtain ⟨a, ha, rfl⟩ := List.mem_map.mp hx
        exact hcon a ha
      linarith
    have hmem : (a0.symbol, a0.usdValue / totalValue pf)
        ∈ pf.map (fun a => (a.symbol, a.usdValue / totalValue pf)) :=
      List.mem_map_of_mem (fun a => (a.symbol, a.usdValue / totalValue pf)) ha0
    have hall : ∀ p ∈ pf.map (fun a => (a.symbol, a.usdValue / totalValue pf)), 0 ≤ p.2 := by
      intro p hp
      obtain ⟨a, ha, rfl⟩ := List.mem_map.mp hp
      exact div_nonneg (hnn a ha) hpos.le
    exact portfolioVariance_pos _ hall _ hmem (div_pos ha0pos hpos)
  exact_mod_cast hvar

/-- Claim C9, witness: the amended statement at the concrete single-asset
portfolio [xGOLD value 50]. -/
theorem c9_witness :
    0 < calculatePortfolioVolatility
      (computeWeights [⟨"xGOLD", 0, 50⟩] (totalValue [⟨"xGOLD", 0, 50⟩])) :=
  c9_theorem [⟨"xGOLD", 0, 50⟩] (by simp) (by norm_num) (by norm_num [totalValue])

/-- Setting a key on the empty record yields a one-entry record. -/
theorem recSet_nil {α : Type} (k : String) (v : α) : recSet [] k v = [(k, v)] := by
  simp [recSet]

/-- Setting a fresh key on a one-entry record appends it. -/
theorem recSet_single_ne {α : Type} (a : String) (x : α) (k : String) (v : α)
    (h : (k == a) = false) : recSet [(a, x)] k v = [(a, x), (k, v)] := by
  have hl : List.lookup k [(a, x)] = none := by
    rw [List.lookup_cons, h]
    rfl
  simp [recSet, hl]

/-- Claim C1, counterexample: for the two-asset portfolio
[USDC value 100, xGOLD value 100] — total value 200 > 0 and xGOLD has
positive volatility — the per-asset risk contributions returned in
`riskExposure` sum to more than 100 + 1e-6 (about 105.8): the code divides
the accumulated marginal contributions `w·σ + Σ w·w'·ρ·σ·σ'` by the
portfolio volatility, which does not normalize them to 100. -/
theorem c1_counterexample :
    0 < totalValue [⟨"USDC", 0, 100⟩, ⟨"xGOLD", 0, 100⟩]
      ∧ 0 < volOf "xGOLD"
      ∧ 100 + 1 / 1000000
        < (((calculateRiskMetrics [⟨"USDC", 0, 100⟩, ⟨"xGOLD", 0, 100⟩]).riskExposure).map
            Prod.snd).sum := by
  have ht : totalValue [⟨"USDC", 0, 100⟩, ⟨"xGOLD", 0, 100⟩] = (200 : ℚ) := by
    norm_num [totalValue]
  refine ⟨by rw [ht]; norm_num, volOf_pos _, ?_⟩
  have hvU : volOf "USDC" = (1 : ℚ) / 100 := by
    unfold volOf
    rw [show List.lookup "USDC" assetVolatility = some 0.01 from rfl]
    norm_num [jsOr]
  have hvG : volOf "xGOLD" = (3 : ℚ) / 20 := by
    unfold volOf
    rw [show List.lookup "xGOLD" assetVolatility = some 0.15 from rfl]
    norm_num [jsOr]
  have hcorr : getCorrelation "USDC" "xGOLD" = (1 : ℚ) / 10 := by
    unfold getCorrelation
    rw [show corrLookup "USDC" "xGOLD" = some 0.1 from rfl]
    norm_num [jsOr]
  have hcorr2 : getCorrelation "xGOLD" "USDC" = (1 : ℚ) / 10 := by
    unfold getCorrelation
    rw [show corrLookup "xGOLD" "USDC" = some 0.1 from rfl]
    norm_num [jsOr]
  have hw : computeWeights [⟨"USDC", 0, 100⟩, ⟨"xGOLD", 0, 100⟩] 200
      = [("USDC", (100 : ℚ) / 200), ("xGOLD", (100 : ℚ) / 200)] := rfl
  have hw2 : [("USDC", (100 : ℚ) / 200), ("xGOLD", (100 : ℚ) / 200)]
      = [("USDC", (1 : ℚ) / 2), ("xGOLD", (1 : ℚ) / 2)] := by norm_num
  have hmc1 : marginalContribution [⟨"USDC", 0, 100⟩, ⟨"xGOLD", 0, 100⟩]
      [("USDC", (1 : ℚ) / 2), ("xGOLD", (1 : ℚ) / 2)] ⟨"USDC", 0, 100⟩ = 403 / 80000 := by
    simp only [marginalContribution, List.map_cons, List.map_nil, List.sum_cons, List.sum_nil]
    norm_num [hvU, hvG, hcorr,
      show ("xGOLD" : String) ≠ "USDC" from by decide,
      show List.lookup "USDC" [("USDC", (1 : ℚ) / 2), ("xGOLD", (1 : ℚ) / 2)]
        = some (1 / 2) from rfl,
      show List.lookup "xGOLD" [("USDC", (1 : ℚ) / 2), ("xGOLD", (1 : ℚ) / 2)]
        = some (1 / 2) from rfl]
  have hmc2 : marginalContribution [⟨"USDC", 0, 100⟩, ⟨"xGOLD", 0, 100⟩]
      [("USDC", (1 : ℚ) / 2), ("xGOLD", (1 : ℚ) / 2)] ⟨"xGOLD", 0, 100⟩ = 6003 / 80000 := by
    simp only [marginalContribution, List.map_cons, List.map_nil, List.sum_cons, List.sum_nil]
    norm_num [hvU, hvG, hcorr2,
      show ("USDC" : String) ≠ "xGOLD" from by decide,
      show List.lookup "USDC" [("USDC", (1 : ℚ) / 2), ("xGOLD", (1 : ℚ) / 2)]
        = some (1 / 2) from rfl,
      show List.lookup "xGOLD" [("USDC", (1 : ℚ) / 2), ("xGOLD", (1 : ℚ) / 2)]
        = some (1 / 2) from rfl]
  have hvar : portfolioVariance [("USDC", (1 : ℚ) / 2), ("xGOLD", (1 : ℚ) / 2)]
      = 229 / 40000 := by
    simp only [portfolioVariance, List.map_cons, List.map_nil, List.sum_cons, List.sum_nil]
    norm_num [hvU, hvG, hcorr]
  have hexp : ∀ σ : ℝ,
      calculateRiskExposure [⟨"USDC", 0, 100⟩, ⟨"xGOLD", 0, 100⟩]
          [("USDC", (1 : ℚ) / 2), ("xGOLD", (1 : ℚ) / 2)] σ
        = [("USDC", ((403 / 80000 : ℚ) : ℝ) / σ * 100),
           ("xGOLD", ((6003 / 80000 : ℚ) : ℝ) / σ * 100)] := by
    intro σ
    simp only [calculateRiskExposure, List.foldl_cons, List.foldl_nil]
    rw [hmc1, hmc2, recSet_nil, recSet_single_ne "USDC" _ "xGOLD" _ rfl]
  simp only [calculateRiskMetrics, ht]
  rw [if_neg (by norm_num : ¬(200 : ℚ) = 0)]
  rw [hw, hw2]
  rw [hexp]
  unfold calculatePortfolioVolatility
  rw [hvar]
  have hcast : (((229 : ℚ) / 40000 : ℚ) : ℝ) = 229 / 40000 := by push_cast; ring
  rw [hcast]
  have hS : (0 : ℝ) < Real.sqrt (229 / 40000) := Real.sqrt_pos.mpr (by norm_num)
  have hSlt : Real.sqrt (229 / 40000) < 757 / 10000 := by
    rw [show (757 / 10000 : ℝ) = Real.sqrt ((757 / 10000) ^ 2) from
          (Real.sqrt_sq (by norm_num)).symm]
    exact Real.sqrt_lt_sqrt (by norm_num) (by norm_num)
  simp only [List.map_cons, List.map_nil, List.sum_cons, List.sum_nil, add_zero]
  have heq : ((403 / 80000 : ℚ) : ℝ) / Real.sqrt (229 / 40000) * 100
      + ((6003 / 80000 : ℚ) : ℝ) / Real.sqrt (229 / 40000) * 100
      = 6406 / 80000 * 100 / Real.sqrt (229 / 40000) := by
    push_cast
    ring
  rw [heq, lt_div_iff₀ hS]
  nlinarith [hS, hSlt]

/-- Claim C1, amended: the per-asset risk contributions returned by
`calculateRiskMetrics` sum to exactly 100 for every single-asset portfolio
with positive value (where they reduce to volatility / volatility × 100);
for multi-asset portfolios the sum is the total marginal contribution
divided by the portfolio volatility and can miss 100 by far more than
1e-6. -/
theorem c1_theorem (s : String) (b v : ℚ) (hv : 0 < v) :
    (((calculateRiskMetrics [⟨s, b, v⟩]).riskExposure).map Prod.snd).sum = 100 := by
  have ht : totalValue [⟨s, b, v⟩] = v := by simp [totalValue]
  have hv0 : v ≠ 0 := ne_of_gt hv
  have hw : computeWeights [⟨s, b, v⟩] v = [(s, v / v)] := by
    simp [computeWeights, recSet]
  have hvolQ := volOf_pos s
  have hvol0 : ((volOf s : ℚ) : ℝ) ≠ 0 := by
    exact_mod_cast hvolQ.ne'
  have hvar : portfolioVariance [(s, (1 : ℚ))] = volOf s * volOf s := by
    simp [portfolioVariance]
  have hσ : calculatePortfolioVolatility [(s, (1 : ℚ))] = ((volOf s : ℚ) : ℝ) := by
    unfold calculatePortfolioVolatility
    rw [hvar]
    push_cast
    rw [show ((volOf s : ℚ) : ℝ) * ((volOf s : ℚ) : ℝ) = ((volOf s : ℚ) : ℝ) ^ 2 by ring]
    exact Real.sqrt_sq (by exact_mod_cast hvolQ.le)
  have hlook : List.lookup s [(s, (1 : ℚ))] = some 1 := by
    rw [List.lookup_cons]
    simp
  have hmc : marginalContribution [⟨s, b, v⟩] [(s, (1 : ℚ))] ⟨s, b, v⟩ = volOf s := by
    simp [marginalContribution, hlook]
  have hexp : calculateRiskExposure [⟨s, b, v⟩] [(s, (1 : ℚ))] (((volOf s : ℚ) : ℝ))
      = [(s, ((volOf s : ℚ) : ℝ) / ((volOf s : ℚ) : ℝ) * 100)] := by
    simp only [calculateRiskExposure, List.foldl_cons, List.foldl_nil]
    rw [hmc, recSet_nil]
  simp only [calculateRiskMetrics, ht]
  rw [if_neg hv0, hw, div_self hv0, hσ, hexp]
  simp [div_self hvol0]

/-- Claim C1, witness: the amended statement at the concrete single-asset
portfolio [yUSDC value 100]. -/
theorem c1_witness :
    (0 : ℚ) < 100
      ∧ (((calculateRiskMetrics [⟨"yUSDC", 0, 100⟩]).riskExposure).map Prod.snd).sum = 100 :=
  ⟨by norm_num, c1_theorem "yUSDC" 0 100 (by norm_num)⟩

/-- The clamped slippage estimate always lies in [0.001, 0.05]. -/
theorem calculateSlippage_mem (fromToken toToken : String) (amount : ℝ) :
    0.001 ≤ calculateSlippage fromToken toToken amount
      ∧ calculateSlippage fromToken toToken amount ≤ 0.05 := by
  unfold calculateSlippage
  exact ⟨le_min (le_max_right _ _) (by norm_num), min_le_right _ _⟩

/-- Claim C10: for every token pair and every amount ≥ 0,
`calculateSlippageTolerance` returns exactly 1.5 times the clamped
slippage estimate and therefore lies in [0.0015, 0.075]; in particular at
the unlisted pair (FOO, BAR) with amount 100,000,000 the recommended
tolerance is 0.075, exceeding the 0.05 cap that bounds the slippage
estimate itself. -/
theorem c10_theorem :
    (∀ (fromToken toToken : String) (amount : ℝ), 0 ≤ amount →
        calculateSlippageTolerance fromToken toToken amount
            = calculateSlippage fromToken toToken amount * 1.5
          ∧ 0.0015 ≤ calculateSlippageTolerance fromToken toToken amount
          ∧ calculateSlippageTolerance fromToken toToken amount ≤ 0.075)
      ∧ 0.05 < calculateSlippageTolerance "FOO" "BAR" 100000000 := by
  constructor
  · intro fromToken toToken amount hamt
    obtain ⟨hlo, hhi⟩ := calculateSlippage_mem fromToken toToken amount
    refine ⟨rfl, ?_, ?_⟩
    · unfold calculateSlippageTolerance
      nlinarith
    · unfold calculateSlippageTolerance
      nlinarith
  · have hvF : volOf "FOO" = (1 : ℚ) / 20 := by
      unfold volOf
      rw [show List.lookup "FOO" assetVolatility = none from rfl]
      norm_num [jsOr]
    have hvB : volOf "BAR" = (1 : ℚ) / 20 := by
      unfold volOf
      rw [show List.lookup "BAR" assetVolatility = none from rfl]
      norm_num [jsOr]
    unfold calculateSlippageTolerance calculateSlippage
    rw [hvF, hvB]
    have hfac : Real.sqrt ((100000000 : ℝ) / 10000) = 100 := by
      rw [show (100000000 : ℝ) / 10000 = 100 ^ 2 by norm_num]
      exact Real.sqrt_sq (by norm_num)
    rw [hfac]
    push_cast
    rw [show ((1 : ℝ) / 20 + 1 / 20) / 2 * 0.1 * 100 = 0.5 by norm_num]
    rw [max_eq_left (by norm_num), min_eq_right (by norm_num)]
    norm_num

/-- Claim C10, witness: the universal statement at the concrete pair
(USDC, USDT) with amount 10,000. -/
theorem c10_witness :
    (0 : ℝ) ≤ 10000
      ∧ (calculateSlippageTolerance "USDC" "USDT" 10000
            = calculateSlippage "USDC" "USDT" 10000 * 1.5
          ∧ 0.0015 ≤ calculateSlippageTolerance "USDC" "USDT" 10000
          ∧ calculateSlippageTolerance "USDC" "USDT" 10000 ≤ 0.075) :=
  ⟨by norm_num, c10_theorem.1 "USDC" "USDT" 10000 (by norm_num)⟩

end Engine
